import Mathlib

/-!
Verification of the PEmbroider online app server (`src/web/server.js`, which
holds two near-duplicate variants of the server, plus the renderer sketch and
Dockerfiles). The definitions below are shallow embeddings of the JavaScript
source: pure string/path helpers become Lean functions, the request handlers
become functions from their inputs (and the filesystem facts they consult) to
the effects and responses they produce, and the concurrency gate becomes a
transition system. Comments cite the JavaScript they embed.
-/

namespace Pembroider

/-! ### Path helpers (Node `path.basename`, `path.join` on POSIX) -/

/-- A POSIX path separator. -/
def isSep (c : Char) : Bool := c = '/'

/-- Drop trailing `/` characters, as Node's `path.posix.basename` does before
taking the last component. -/
def dropTrailingSep (l : List Char) : List Char :=
  (l.reverse.dropWhile isSep).reverse

/-- The suffix after the last `/`. -/
def lastComponent (l : List Char) : List Char :=
  (l.reverse.takeWhile (fun c => !(isSep c))).reverse

/-- `path.posix.basename` on a character list: ignore trailing separators,
then take everything after the last separator. -/
def basenameList (l : List Char) : List Char :=
  lastComponent (dropTrailingSep l)

/-- Node `path.basename` (POSIX, no extension argument). -/
def posixBasename (s : String) : String := String.mk (basenameList s.data)

/-- `path.join(a, b)` for the fixed joins made by the server. Node's `join`
also collapses duplicate separators and resolves dot segments; for the
literal component names the server appends (`"out"`, `"preview.png"`,
`"design.pes"`, a sanitized filename) the final component of the joined path
is unaffected by that normalization, which is all the theorems below use. -/
def pathJoin (a b : String) : String := a ++ "/" ++ b

/-! ### Filename sanitization (`safeBaseName`, second variant) -/

/-- The character class of the regex `[a-zA-Z0-9._-]` in `safeBaseName`. -/
def isSafeChar (c : Char) : Bool :=
  c.isAlphanum || c = '.' || c = '_' || c = '-'

/-- One step of `.replace(/[^a-zA-Z0-9._-]/g, "_")`. -/
def sanitizeChar (c : Char) : Char := if isSafeChar c then c else '_'

/-- `safeBaseName` on a character list: basename, replace unsafe characters
with `_`, then `.slice(0, 120)`. -/
def sanitizeList (l : List Char) : List Char :=
  ((basenameList l).map sanitizeChar).take 120

/-- `safeBaseName(filename)` from src/web/server.js (second variant):
`path.basename(filename).replace(/[^a-zA-Z0-9._-]/g, "_").slice(0, 120)`. -/
def safeBaseName (s : String) : String := String.mk (sanitizeList s.data)

/-- Modelled from the spec: POSIX resolution of a single stored-file name
against a directory given as a list of segments. `..` steps to the parent,
`.` and the empty name stay at the directory itself; any other separator-free
name denotes an entry strictly inside the directory. Used to state where a
file stored under a (sanitized) name resolves. -/
def resolveInto (dir : List String) (name : String) : List String :=
  if name = ".." then dir.dropLast
  else if name = "." then dir
  else if name = "" then dir
  else dir ++ [name]

/-! ### Upload save loop (`app.post /api/generate`, second variant) -/

/-- JavaScript `v || dflt` on an optional string: the default is taken for a
missing value and for the falsy empty string. -/
def jsOrString (v : Option String) (dflt : String) : String :=
  match v with
  | none => dflt
  | some s => if s = "" then dflt else s

/-- The template literal `layer-${savedNames.length}.png` used as fallback
original name. -/
def layerFallbackName (n : Nat) : String :=
  "layer-" ++ toString n ++ ".png"

/-- The destination file names computed by the save loop of
`app.post /api/generate`: for each uploaded file, in order,
`safeBaseName(f.originalname || layer-N.png)` where `N` is the number of
files already saved. The loop writes each file to
`path.join(layersDir, name)` unconditionally — there is no directory check
and no disambiguation before the write. -/
def saveDestNames (files : List (Option String)) : List String :=
  files.enum.map (fun p => safeBaseName (jsOrString p.2 (layerFallbackName p.1)))

/-! ### Render result classification -/

/-- Outcomes of a render invocation as reported by `app.post /api/generate`
(second variant): the timeout response, the nonzero-exit response, the
missing-outputs response, and the success payload. -/
inductive RenderResult where
  | done
  | timedOut
  | exitFailure (exitCode : Option Int)
  | missingOutputs
deriving DecidableEq

/-- The classification performed by `app.post /api/generate` after the child
settles: `killedByTimeout` first, then `child.exitCode !== 0` (where a
signal-killed child has `exitCode === null`, modelled as `none`), then
`!hasPreview || !hasPes` against `out/preview.png` and `out/design.pes`,
else the success response. -/
def classifyGenerate (killedByTimeout : Bool) (exitCode : Option Int)
    (hasPreview hasPes : Bool) : RenderResult :=
  if killedByTimeout then RenderResult.timedOut
  else if exitCode ≠ some 0 then RenderResult.exitFailure exitCode
  else if !hasPreview || !hasPes then RenderResult.missingOutputs
  else RenderResult.done

/-- Responses produced by the `child.on("close")` handler of the first
variant's `app.post /api/jobs`. -/
inductive JobsResponse where
  | rendererFailed (exitCode : Option Int)
  | okJob
deriving DecidableEq

/-- The first variant's close handler: `if (code !== 0)` answer the
"Renderer failed" error, else answer the success payload with the two
download links. No other input is consulted. -/
def respondJobsClose (code : Option Int) : JobsResponse :=
  if code ≠ some 0 then JobsResponse.rendererFailed code else JobsResponse.okJob

/-- The first variant's render outcome as a function of the exit code and of
whether the two expected output files exist. The handler never reads the
filesystem, so the two booleans do not occur in the body: the response is
decided by the exit code alone. -/
def jobsCloseOutcome (code : Option Int) (hasPreview hasPes : Bool) : JobsResponse :=
  respondJobsClose code

/-- The `error` field of the first variant's JSON responses: both a nonzero
exit and a timeout-killed child (exit code `null`) produce the same
`"Renderer failed"` label; success has no error field. -/
def jobsErrorLabel : JobsResponse → Option String
  | JobsResponse.rendererFailed _ => some "Renderer failed"
  | JobsResponse.okJob => none

/-- The signal passed to `child.kill` when the render timer fires — both
variants call `child.kill("SIGKILL")` with no graceful-shutdown step. -/
def timeoutKillSignal : String := "SIGKILL"

/-! ### Concurrency gate (`withConcurrency`, second variant) -/

/-- The mutable state of the gate: `active` running invocations and the
length of the `queue` of parked resolvers. -/
structure GateState where
  active : Nat
  waiting : Nat
deriving DecidableEq

/-- Atomic transitions of `withConcurrency`. A submission with a free slot
runs at once (`active++`); one at capacity parks a resolver on `queue`. When
a job's `finally` block runs it decrements `active` and, if a resolver is
queued, resolves it; the resumed waiter's `active++` runs as a microtask
before any further external event, so the decrement and the admission are
folded into the single step `finishAdmit`. -/
inductive GateStep (maxConcurrent : Nat) : GateState → GateState → Prop where
  | submitRun (a w : Nat) (h : a < maxConcurrent) :
      GateStep maxConcurrent ⟨a, w⟩ ⟨a + 1, w⟩
  | submitWait (a w : Nat) (h : maxConcurrent ≤ a) :
      GateStep maxConcurrent ⟨a, w⟩ ⟨a, w + 1⟩
  | finishIdle (a : Nat) :
      GateStep maxConcurrent ⟨a + 1, 0⟩ ⟨a, 0⟩
  | finishAdmit (a w : Nat) :
      GateStep maxConcurrent ⟨a + 1, w + 1⟩ ⟨a + 1, w⟩

/-- States reachable from the initial `active = 0`, empty queue. -/
inductive GateReachable (m : Nat) : GateState → Prop where
  | start : GateReachable m ⟨0, 0⟩
  | step {s t : GateState} : GateReachable m s → GateStep m s t → GateReachable m t

/-! ### Authorization (`authMiddleware`, second variant) -/

/-- JavaScript `String.prototype.trim` whitespace for the characters this
server compares. -/
def isJsSpace (c : Char) : Bool :=
  c = ' ' || c = '\t' || c = '\n' || c = '\r' || c = '\x0b' || c = '\x0c'

/-- `s.trim()`. -/
def jsTrim (s : String) : String :=
  String.mk (((s.data.dropWhile isJsSpace).reverse.dropWhile isJsSpace).reverse)

/-- `const CLASS_KEY = process.env.CLASS_KEY || ""` — an unset variable and
the falsy empty string both yield `""`. -/
def classKeyFromEnv (env : Option String) : String := env.getD ""

/-- `const REQUIRE_CLASS_KEY = CLASS_KEY.trim().length > 0`. -/
def REQUIRE_CLASS_KEY (classKey : String) : Bool :=
  decide (0 < (jsTrim classKey).length)

/-- `authMiddleware`: admit unconditionally when `REQUIRE_CLASS_KEY` is
false; otherwise admit exactly the requests whose trimmed `x-class-key`
header is nonempty and equal to `CLASS_KEY`. -/
def authMiddleware (classKey : String) (header : Option String) : Bool :=
  if REQUIRE_CLASS_KEY classKey = false then true
  else
    let headerKey := jsTrim (header.getD "")
    if headerKey = "" then false
    else if headerKey ≠ classKey then false
    else true

/-! ### Retention sweeper (`cleanupOldJobs`, `KEEP_JOBS_HOURS`) -/

/-- One entry of `fsp.readdir(JOBS_ROOT, { withFileTypes: true })`, together
with the filesystem facts the sweeper consults about it: its `mtimeMs`, and
whether the `stat` and `rm` calls on it succeed. -/
structure DirEntry where
  name : String
  isDir : Bool
  mtimeMs : Int
  statOk : Bool
  rmOk : Bool
deriving DecidableEq

/-- What the sweeper did to one directory entry. Both failures are swallowed
by the per-entry `try`/`catch`. -/
inductive SweepAction where
  | removed
  | removeFailed
  | statFailed
  | kept
deriving DecidableEq

/-- `const cutoff = Date.now() - KEEP_JOBS_HOURS * 3600 * 1000`. -/
def sweepCutoff (now keepHours : Int) : Int := now - keepHours * 3600 * 1000

/-- The body mapped over each directory entry: `stat` it (a failure is
caught and ignored), and `rm` it recursively when `stat.mtimeMs < cutoff`
(an `rm` failure is likewise caught and ignored). -/
def entrySweep (cutoff : Int) (e : DirEntry) : String × SweepAction :=
  if e.statOk = false then (e.name, SweepAction.statFailed)
  else if e.mtimeMs < cutoff then
    (if e.rmOk then (e.name, SweepAction.removed) else (e.name, SweepAction.removeFailed))
  else (e.name, SweepAction.kept)

/-- `cleanupOldJobs()`: read the jobs root, keep the directory entries, and
sweep each independently (the source awaits `Promise.all` of the mapped
per-entry actions). -/
def cleanupOldJobs (now keepHours : Int) (entries : List DirEntry) :
    List (String × SweepAction) :=
  (entries.filter (fun e => e.isDir)).map (entrySweep (sweepCutoff now keepHours))

/-- The value of a string of decimal digits, as `Number` reads the
nonnegative-integer environment values relevant here. -/
def natOfDigits : List Char → Nat → Nat
  | [], acc => acc
  | c :: r, acc => natOfDigits r (acc * 10 + (c.toNat - 48))

/-- `const KEEP_JOBS_HOURS = Number(process.env.KEEP_JOBS_HOURS || 24)`:
the `||` takes the default 24 for a missing or empty variable, while the
truthy string `"0"` parses to the number 0. Digit strings are read with
`natOfDigits`; non-numeric values (`Number` gives `NaN`) are outside the
scope of the claims about this constant. -/
def KEEP_JOBS_HOURS (env : Option String) : Int :=
  match env with
  | none => 24
  | some s => if s = "" then 24 else Int.ofNat (natOfDigits s.data 0)

/-! ### Artifact retrieval routes -/

/-- A download route either streams a file at a path or answers 404. -/
inductive ArtifactResponse where
  | streamed (path : String) : ArtifactResponse
  | notFound
deriving DecidableEq

/-- `path.join(JOBS_ROOT, id, "out", fname)`. -/
def jobOutPath (jobsRoot jobId fname : String) : String :=
  pathJoin (pathJoin (pathJoin jobsRoot jobId) "out") fname

/-- First variant `app.get /api/jobs/:id/:file`: joins the caller-supplied
`:file` parameter directly under the job's `out/` directory and serves it if
it exists, with no restriction on the name. -/
def artifactRouteV1 (jobsRoot id file : String) (onDisk : Bool) : ArtifactResponse :=
  if onDisk then ArtifactResponse.streamed (jobOutPath jobsRoot id file)
  else ArtifactResponse.notFound

/-- Second variant `app.get /api/job/:id/preview`: streams the fixed
`out/preview.png` of the job, or 404 when absent. -/
def previewRoute (jobsRoot id : String) (onDisk : Bool) : ArtifactResponse :=
  if onDisk then ArtifactResponse.streamed (jobOutPath jobsRoot id "preview.png")
  else ArtifactResponse.notFound

/-- Second variant `app.get /api/job/:id/pes`: streams the fixed
`out/design.pes` of the job, or 404 when absent. -/
def pesRoute (jobsRoot id : String) (onDisk : Bool) : ArtifactResponse :=
  if onDisk then ArtifactResponse.streamed (jobOutPath jobsRoot id "design.pes")
  else ArtifactResponse.notFound

/-! ### Job-creation intake (validation order and its disk effects) -/

/-- The early responses of the two job-creation handlers. -/
inductive IntakeResponse where
  | noFilesError
  | invalidSpecError
  | emptyLayersError
  | missingSpecError
  | proceeded
deriving DecidableEq

/-- The on-disk and process effects performed by an intake run before (or
instead of) rendering: whether `layers/` and `out/` were created, how many
uploaded files were written, whether `spec.json` was written, and whether a
renderer process was spawned. -/
structure IntakeEffects where
  dirsCreated : Bool
  filesSaved : Nat
  specWritten : Bool
  spawned : Bool
  response : IntakeResponse
deriving DecidableEq

/-- The intake prefix of `app.post /api/generate` (second variant), in
source order: `ensureDir(layersDir); ensureDir(outDir)` first; then the
no-files check; then `JSON.parse` of the optional `spec` field; then the
save loop writing every upload; then, when a spec was provided, the
`spec.layers[]` non-empty check; then `spec.json` is written and the
renderer spawned. `specParses` and `specLayersOk` stand for the outcome of
`JSON.parse(req.body.spec)` and of the array check on the parsed value. -/
def generateIntake (files : List (Option String))
    (specProvided specParses specLayersOk : Bool) : IntakeEffects :=
  if files.length = 0 then
    ⟨true, 0, false, false, IntakeResponse.noFilesError⟩
  else if specProvided && !specParses then
    ⟨true, 0, false, false, IntakeResponse.invalidSpecError⟩
  else if specProvided && !specLayersOk then
    ⟨true, files.length, false, false, IntakeResponse.emptyLayersError⟩
  else
    ⟨true, files.length, true, true, IntakeResponse.proceeded⟩

/-- The intake prefix of the first variant's `app.post /api/jobs`, in source
order: the no-files check comes before any directory is made; then the
directories are created and every upload is saved under its original name;
then the missing-`spec` check; then `spec.json` is written and its first
non-space character checked; then the renderer is spawned. -/
def jobsIntakeV1 (files : List (Option String))
    (specProvided firstCharOk : Bool) : IntakeEffects :=
  if files.length = 0 then
    ⟨false, 0, false, false, IntakeResponse.noFilesError⟩
  else if !specProvided then
    ⟨true, files.length, false, false, IntakeResponse.missingSpecError⟩
  else if !firstCharOk then
    ⟨true, files.length, true, false, IntakeResponse.invalidSpecError⟩
  else
    ⟨true, files.length, true, true, IntakeResponse.proceeded⟩

/-! ### Helper lemmas -/

theorem dropWhile_eq_self_of_forall {α : Type} {p : α → Bool} (l : List α)
    (h : ∀ c ∈ l, p c = false) : l.dropWhile p = l := by
  cases l with
  | nil => rfl
  | cons a t => simp [List.dropWhile_cons, h a (List.mem_cons_self a t)]

theorem takeWhile_eq_self_of_forall {α : Type} {p : α → Bool} (l : List α)
    (h : ∀ c ∈ l, p c = true) : l.takeWhile p = l := by
  induction l with
  | nil => rfl
  | cons a t ih =>
    rw [List.takeWhile_cons, h a (List.mem_cons_self a t), if_pos rfl]
    rw [ih (fun c hc => h c (List.mem_cons_of_mem a hc))]

theorem takeWhile_append_stop {α : Type} {p : α → Bool} (xs : List α) (y : α) (ys : List α)
    (hxs : ∀ x ∈ xs, p x = true) (hy : p y = false) :
    (xs ++ y :: ys).takeWhile p = xs := by
  induction xs with
  | nil => simp [List.takeWhile_cons, hy]
  | cons a t ih =>
    rw [List.cons_append, List.takeWhile_cons, hxs a (List.mem_cons_self a t), if_pos rfl]
    rw [ih (fun x hx => hxs x (List.mem_cons_of_mem a hx))]

theorem basenameList_eq (l : List Char) :
    basenameList l
      = ((l.reverse.dropWhile isSep).takeWhile (fun c => !(isSep c))).reverse := by
  unfold basenameList dropTrailingSep lastComponent
  rw [List.reverse_reverse]

theorem basenameList_of_noSep (l : List Char) (h : ∀ c ∈ l, isSep c = false) :
    basenameList l = l := by
  rw [basenameList_eq,
    dropWhile_eq_self_of_forall _ (fun c hc => h c (List.mem_reverse.mp hc)),
    takeWhile_eq_self_of_forall _ (fun c hc => by rw [h c (List.mem_reverse.mp hc)]; rfl),
    List.reverse_reverse]

theorem basenameList_concat (a s : List Char) (hne : s ≠ [])
    (h : ∀ c ∈ s, isSep c = false) :
    basenameList (a ++ '/' :: s) = s := by
  rw [basenameList_eq]
  have hrev : (a ++ '/' :: s).reverse = s.reverse ++ '/' :: a.reverse := by
    simp [List.reverse_append]
  rw [hrev]
  have hdrop : (s.reverse ++ '/' :: a.reverse).dropWhile isSep
      = s.reverse ++ '/' :: a.reverse := by
    cases hs : s.reverse with
    | nil => exact absurd (List.reverse_eq_nil_iff.mp hs) hne
    | cons c r =>
      have hc : isSep c = false :=
        h c (List.mem_reverse.mp (hs ▸ List.mem_cons_self c r))
      simp [List.dropWhile_cons, hc]
  rw [hdrop,
    takeWhile_append_stop _ _ _ (fun x hx => by rw [h x (List.mem_reverse.mp hx)]; rfl)
      (by rfl),
    List.reverse_reverse]

theorem stringData_append (a b : String) : (a ++ b).data = a.data ++ b.data := by
  cases a
  cases b
  rfl

theorem stringMk_data (s : String) : String.mk s.data = s := by
  cases s
  rfl

theorem data_ne_nil_of_ne_empty {s : String} (h : s ≠ "") : s.data ≠ [] := by
  cases s with
  | mk l =>
    intro hd
    apply h
    have hl : l = [] := hd
    rw [hl]

theorem posixBasename_pathJoin (a s : String) (hne : s ≠ "")
    (h : ∀ c ∈ s.data, isSep c = false) :
    posixBasename (pathJoin a s) = s := by
  unfold posixBasename pathJoin
  rw [stringData_append, stringData_append]
  have hslash : (a.data ++ "/".data) ++ s.data = a.data ++ '/' :: s.data := by
    simp
  rw [hslash, basenameList_concat _ _ (data_ne_nil_of_ne_empty hne) h, stringMk_data]

theorem isSafeChar_sanitizeChar (c : Char) : isSafeChar (sanitizeChar c) = true := by
  unfold sanitizeChar
  cases h : isSafeChar c with
  | true => rw [if_pos rfl]; exact h
  | false => rw [if_neg (by simp)]; decide

theorem mem_sanitizeList_safe (l : List Char) (c : Char) (hc : c ∈ sanitizeList l) :
    isSafeChar c = true := by
  unfold sanitizeList at hc
  have hc' := List.take_subset 120 _ hc
  obtain ⟨b, _, rfl⟩ := List.mem_map.mp hc'
  exact isSafeChar_sanitizeChar b

theorem safe_not_sep (c : Char) (h : isSafeChar c = true) : isSep c = false := by
  cases hs : isSep c with
  | false => rfl
  | true =>
    unfold isSep at hs
    have hc : c = '/' := of_decide_eq_true hs
    rw [hc] at h
    exact absurd h (by decide)

theorem length_sanitizeList_le (l : List Char) : (sanitizeList l).length ≤ 120 := by
  unfold sanitizeList
  rw [List.length_take]
  exact min_le_left _ _

theorem map_sanitize_of_safe (l : List Char) (h : ∀ c ∈ l, isSafeChar c = true) :
    l.map sanitizeChar = l := by
  induction l with
  | nil => rfl
  | cons a t ih =>
    have ha : sanitizeChar a = a := by
      unfold sanitizeChar
      rw [if_pos (h a (List.mem_cons_self a t))]
    rw [List.map_cons, ha, ih (fun c hc => h c (List.mem_cons_of_mem a hc))]

theorem sanitizeList_idem (l : List Char) :
    sanitizeList (sanitizeList l) = sanitizeList l := by
  have hsafe : ∀ c ∈ sanitizeList l, isSafeChar c = true :=
    fun c hc => mem_sanitizeList_safe l c hc
  have hnos : ∀ c ∈ sanitizeList l, isSep c = false :=
    fun c hc => safe_not_sep c (hsafe c hc)
  show ((basenameList (sanitizeList l)).map sanitizeChar).take 120 = sanitizeList l
  rw [basenameList_of_noSep _ hnos, map_sanitize_of_safe _ hsafe]
  exact List.take_of_length_le (length_sanitizeList_le l)

theorem safeBaseName_idem (s : String) :
    safeBaseName (safeBaseName s) = safeBaseName s := by
  unfold safeBaseName
  rw [show (String.mk (sanitizeList s.data)).data = sanitizeList s.data from rfl,
    sanitizeList_idem]

theorem posixBasename_jobOutPath_preview (root id : String) :
    posixBasename (jobOutPath root id "preview.png") = "preview.png" :=
  posixBasename_pathJoin _ _ (by decide) (by decide)

theorem posixBasename_jobOutPath_pes (root id : String) :
    posixBasename (jobOutPath root id "design.pes") = "design.pes" :=
  posixBasename_pathJoin _ _ (by decide) (by decide)

/-! ### Claim theorems -/

/-- C1 (amended): in the `/api/generate` handler a render invocation is
reported done exactly when the child was not killed by the timeout, exited
with code 0, and both `out/preview.png` and `out/design.pes` exist — a zero
exit with a missing output yields the incomplete-output failure. The first
variant's `/api/jobs` close handler, however, reports success on exit code 0
alone, without consulting the output files. -/
theorem classifyGenerate_done_iff (k : Bool) (c : Option Int) (p q : Bool) :
    (classifyGenerate k c p q = RenderResult.done
      ↔ k = false ∧ c = some 0 ∧ p = true ∧ q = true)
    ∧ jobsCloseOutcome (some 0) p q = JobsResponse.okJob := by
  constructor
  · cases k <;> cases p <;> cases q <;>
      by_cases hc : c = some 0 <;>
      simp [classifyGenerate, hc]
  · rfl

/-- C1 counterexample: in the first variant, a renderer that exits 0 while
both expected output files are missing is reported as success (the `ok`
response with the two download links), not as a failure — refuting the
claim's "a zero exit with either output file missing is classified as a
failure, never as done" for that render path. -/
theorem jobsClose_zero_exit_reports_ok :
    jobsCloseOutcome (some 0) false false = JobsResponse.okJob := by rfl

/-- C2: the concurrency gate never lets the number of running render
invocations exceed the configured maximum: in every reachable state of
`withConcurrency`, `active ≤ MAX_CONCURRENT`; and a submission arriving at
capacity transitions to the wait queue (one more parked resolver, `active`
unchanged) rather than running. -/
theorem withConcurrency_bound (m : Nat) :
    (∀ s, GateReachable m s → s.active ≤ m)
    ∧ (∀ a w, m ≤ a → GateStep m ⟨a, w⟩ ⟨a, w + 1⟩) := by
  constructor
  · intro s h
    induction h with
    | start => exact Nat.zero_le m
    | step _hr hstep ih =>
      cases hstep with
      | submitRun a w hlt => exact hlt
      | submitWait a w hge => exact ih
      | finishIdle a => exact Nat.le_of_succ_le ih
      | finishAdmit a w => exact ih
  · intro a w h
    exact GateStep.submitWait a w h

/-- C2 witness: the state with one running job and one waiting submission is
reachable under `MAX_CONCURRENT = 1` and respects the bound, and a
submission at capacity is a queue transition. -/
theorem withConcurrency_check :
    (GateState.mk 1 1).active ≤ 1 ∧ GateStep 1 ⟨1, 0⟩ ⟨1, 1⟩ :=
  ⟨(withConcurrency_bound 1).1 ⟨1, 1⟩
      (GateReachable.step
        (GateReachable.step GateReachable.start (GateStep.submitRun 0 0 (by decide)))
        (GateStep.submitWait 1 0 (by decide))),
    (withConcurrency_bound 1).2 1 0 (by decide)⟩

/-- C3 (amended): in the `/api/generate` handler a render killed by the
timeout is classified as the distinct timeout failure — never done, and a
different result from every nonzero-exit failure — and the kill is an
immediate `SIGKILL` with no grace period. In the first variant's `/api/jobs`
handler a timeout-killed child (exit code `null`) is also never reported
done, but it is answered with the same generic "Renderer failed" error as
any failed exit, not with a distinct timeout kind. -/
theorem generate_timeout_distinct (c : Option Int) (p q : Bool) (e : Option Int) :
    classifyGenerate true c p q = RenderResult.timedOut
    ∧ RenderResult.timedOut ≠ RenderResult.done
    ∧ RenderResult.timedOut ≠ RenderResult.exitFailure e
    ∧ respondJobsClose none ≠ JobsResponse.okJob
    ∧ timeoutKillSignal = "SIGKILL" := by
  refine ⟨rfl, by decide, by simp, by decide, rfl⟩

/-- C3 counterexample: the first variant answers a timeout-killed render
(close event with exit code `null`) with the generic renderer-failed
response, carrying the very same error label as an ordinary nonzero exit —
so that render path has no timeout classification distinguishable from a
generic failure, refuting the claim as stated for every invocation. -/
theorem jobsClose_timeout_generic_label :
    respondJobsClose none = JobsResponse.rendererFailed none
    ∧ jobsErrorLabel (respondJobsClose none) = jobsErrorLabel (respondJobsClose (some 1)) := by
  decide

/-- C4 (amended): `safeBaseName` is idempotent and every character of its
output lies in the safe class `[a-zA-Z0-9._-]` (so no path separators); and
whenever the sanitized name is not one of the degenerate names `""`, `"."`
and `".."`, the file stored under it resolves strictly inside the `layers/`
directory. The degenerate names survive sanitization, so the traversal-free
part of the claim does not hold for them. -/
theorem safeBaseName_idempotent_safe (s : String) :
    safeBaseName (safeBaseName s) = safeBaseName s
    ∧ (∀ c ∈ (safeBaseName s).data, isSafeChar c = true)
    ∧ (safeBaseName s ≠ "" → safeBaseName s ≠ "." → safeBaseName s ≠ ".." →
        ∀ dir : List String, resolveInto dir (safeBaseName s) = dir ++ [safeBaseName s]) := by
  refine ⟨safeBaseName_idem s, fun c hc => mem_sanitizeList_safe _ c hc, ?_⟩
  intro h0 h1 h2 dir
  unfold resolveInto
  rw [if_neg h2, if_neg h1, if_neg h0]

/-- C4 witness: the traversal-laden upload name from the spec's example
sanitizes to `secret_.png` and resolves strictly inside `layers/`. -/
theorem safeBaseName_check :
    safeBaseName "../evil/..//secret?.png" = "secret_.png"
    ∧ resolveInto ["layers"] (safeBaseName "../evil/..//secret?.png")
        = ["layers", "secret_.png"] := by
  refine ⟨by decide, ?_⟩
  have h := (safeBaseName_idempotent_safe "../evil/..//secret?.png").2.2
    (by decide) (by decide) (by decide) ["layers"]
  rw [h]
  decide

/-- C4 counterexample: sanitizing the filename `".."` returns `".."`
unchanged — a pure path-traversal sequence — and joining it under the job's
`layers/` directory resolves to the job directory's parent of `layers/`,
not strictly inside it. This refutes the claim's "no traversal sequences"
and "resolves strictly inside layers/" as stated for every input. -/
theorem safeBaseName_dotdot_escapes :
    safeBaseName ".." = ".."
    ∧ resolveInto ["jobs", "job1", "layers"] (safeBaseName "..") = ["jobs", "job1"] := by
  decide

/-- C5: evaluation of the `/api/generate` save loop at the failing input —
two uploads both named `layer.png` are assigned the same destination name,
so the second write overwrites the first. The repository's own test suite
expects a `uniqueName` helper to yield `layer-1.png` here, but the server
neither defines nor calls one. -/
theorem saveDestNames_collision :
    saveDestNames [some "layer.png", some "layer.png"] = ["layer.png", "layer.png"] := by
  decide

/-- C6 (amended): the second variant's artifact routes are restricted to the
two expected output names — the preview route only ever streams a file named
`preview.png` and the pes route only ever a file named `design.pes`, each
answering not-found exactly when the file is absent. The first variant's
`/api/jobs/:id/:file` route, however, serves whatever name the caller
supplies from the job's `out/` directory. -/
theorem artifactRoutes_restricted (root id : String) (onDisk : Bool) :
    (∀ p, previewRoute root id onDisk = ArtifactResponse.streamed p →
      posixBasename p = "preview.png")
    ∧ (previewRoute root id onDisk = ArtifactResponse.notFound ↔ onDisk = false)
    ∧ (∀ p, pesRoute root id onDisk = ArtifactResponse.streamed p →
      posixBasename p = "design.pes")
    ∧ (pesRoute root id onDisk = ArtifactResponse.notFound ↔ onDisk = false) := by
  cases onDisk with
  | false =>
    refine ⟨?_, by simp [previewRoute], ?_, by simp [pesRoute]⟩ <;>
      intro p hp <;> simp [previewRoute, pesRoute] at hp
  | true =>
    refine ⟨?_, by simp [previewRoute], ?_, by simp [pesRoute]⟩ <;> intro p hp
    · simp [previewRoute] at hp
      subst hp
      exact posixBasename_jobOutPath_preview root id
    · simp [pesRoute] at hp
      subst hp
      exact posixBasename_jobOutPath_pes root id

/-- C6 witness: a present preview file is streamed and its served name is
`preview.png`. -/
theorem artifactRoutes_check :
    posixBasename (jobOutPath "jobs" "job1" "preview.png") = "preview.png" :=
  (artifactRoutes_restricted "jobs" "job1" true).1 _ rfl

/-- C6 counterexample: the first variant's download route streams an
arbitrary caller-chosen name from the job's `out/` directory — here
`notes.txt`, which is neither of the two expected output names — refuting
"the file selector is restricted to exactly the two expected output names"
for every artifact-retrieval request. -/
theorem artifactRouteV1_unrestricted :
    artifactRouteV1 "jobs" "job1" "notes.txt" true
      = ArtifactResponse.streamed (jobOutPath "jobs" "job1" "notes.txt")
    ∧ posixBasename (jobOutPath "jobs" "job1" "notes.txt") = "notes.txt"
    ∧ "notes.txt" ≠ "design.pes" ∧ "notes.txt" ≠ "preview.png" := by
  decide

/-- C7 (amended): a job-creation request that fails validation never spawns
a renderer process, and in the `/api/generate` handler no uploaded file is
written for the no-files and invalid-spec-JSON errors; but the job's
`layers/` and `out/` directories are created before those checks, and in the
first variant's `/api/jobs` handler the uploaded files are all saved before
the spec checks — only the first variant's no-files error truly precedes all
on-disk job state. -/
theorem intake_validation_effects (files : List (Option String)) (sp sj sl fc : Bool) :
    (files.length = 0 →
      generateIntake files sp sj sl = ⟨true, 0, false, false, IntakeResponse.noFilesError⟩)
    ∧ (files.length ≠ 0 → sp = true → sj = false →
      generateIntake files sp sj sl = ⟨true, 0, false, false, IntakeResponse.invalidSpecError⟩)
    ∧ (files.length = 0 →
      jobsIntakeV1 files sp fc = ⟨false, 0, false, false, IntakeResponse.noFilesError⟩)
    ∧ (files.length ≠ 0 → sp = false →
      jobsIntakeV1 files sp fc
        = ⟨true, files.length, false, false, IntakeResponse.missingSpecError⟩) := by
  refine ⟨?_, ?_, ?_, ?_⟩
  · intro h
    simp [generateIntake, h]
  · intro h hsp hsj
    subst hsp
    subst hsj
    simp [generateIntake, h]
  · intro h
    simp [jobsIntakeV1, h]
  · intro h hsp
    subst hsp
    simp [jobsIntakeV1, h]

/-- C7 witness: an invalid-spec request with one upload is rejected without
spawning or saving files (second variant), and a missing-spec request in the
first variant is rejected after its one upload was already saved. -/
theorem intake_validation_check :
    generateIntake [some "a.png"] true false true
      = ⟨true, 0, false, false, IntakeResponse.invalidSpecError⟩
    ∧ jobsIntakeV1 [some "a.png"] false true
      = ⟨true, 1, false, false, IntakeResponse.missingSpecError⟩ :=
  ⟨(intake_validation_effects [some "a.png"] true false true true).2.1 (by decide) rfl rfl,
    by
      have h := (intake_validation_effects [some "a.png"] false true true true).2.2.2
        (by decide) rfl
      simpa using h⟩

/-- C7 counterexample: a request with zero files is answered with the
no-files validation error, yet the `/api/generate` handler has already
created the job's directories on disk — refuting "on such an error no job
directory or files exist for that request". -/
theorem generateIntake_noFiles_dirs :
    (generateIntake [] false true true).response = IntakeResponse.noFilesError
    ∧ (generateIntake [] false true true).dirsCreated = true := by
  decide

/-- C8: the retention sweep handles each directory entry independently — the
sweep of a list decomposes around any entry, so a stat or delete failure on
one entry never aborts the others — and a successfully stat-ed directory is
removed exactly when its modification time is older than the cutoff
`now - KEEP_JOBS_HOURS hours` (deletion subject to the `rm` call
succeeding), and is left untouched when it is at least the cutoff. -/
theorem cleanupOldJobs_selective (now keep : Int) (l1 l2 : List DirEntry) (e : DirEntry)
    (hdir : e.isDir = true) :
    cleanupOldJobs now keep (l1 ++ e :: l2)
      = cleanupOldJobs now keep l1
        ++ entrySweep (sweepCutoff now keep) e :: cleanupOldJobs now keep l2
    ∧ (e.statOk = true → e.mtimeMs < sweepCutoff now keep → e.rmOk = true →
        entrySweep (sweepCutoff now keep) e = (e.name, SweepAction.removed))
    ∧ (e.statOk = true → ¬ e.mtimeMs < sweepCutoff now keep →
        entrySweep (sweepCutoff now keep) e = (e.name, SweepAction.kept)) := by
  refine ⟨?_, ?_, ?_⟩
  · simp [cleanupOldJobs, List.filter_append, List.filter_cons, hdir]
  · intro hs hm hr
    simp [entrySweep, hs, hm, hr]
  · intro hs hm
    simp [entrySweep, hs, hm]

/-- C8 witness: with a 24-hour retention age, a directory whose mtime is
older than the cutoff is removed while the sweep form decomposes as
stated. -/
theorem cleanupOldJobs_check :
    cleanupOldJobs 200000000 24 [⟨"old", true, 100, true, true⟩]
      = [("old", SweepAction.removed)] := by
  have h := cleanupOldJobs_selective 200000000 24 [] [] ⟨"old", true, 100, true, true⟩ rfl
  show cleanupOldJobs 200000000 24 ([] ++ ⟨"old", true, 100, true, true⟩ :: [])
      = [("old", SweepAction.removed)]
  rw [h.1, h.2.1 rfl (by decide) rfl]
  rfl

/-- C9 (amended): the sweeper has no disable path. An unset
`KEEP_JOBS_HOURS` defaults to 24 (sweeping stays enabled with a 24-hour
cutoff), and the value `"0"` — the string `"0"` being truthy in
`Number(process.env.KEEP_JOBS_HOURS || 24)` — yields a retention of 0 hours,
which makes the cutoff the sweep instant itself, so every job directory
whose modification time is in the past is deleted rather than none. -/
theorem retention_zero_unset_behavior :
    KEEP_JOBS_HOURS none = 24
    ∧ KEEP_JOBS_HOURS (some "0") = 0
    ∧ (∀ (now : Int) (e : DirEntry), e.isDir = true → e.statOk = true → e.rmOk = true →
        e.mtimeMs < now →
        cleanupOldJobs now (KEEP_JOBS_HOURS (some "0")) [e]
          = [(e.name, SweepAction.removed)]) := by
  refine ⟨rfl, by decide, ?_⟩
  intro now e hd hs hr hm
  have hk : KEEP_JOBS_HOURS (some "0") = 0 := by decide
  rw [hk]
  have hcut : sweepCutoff now 0 = now := by simp [sweepCutoff]
  simp [cleanupOldJobs, List.filter_cons, hd, entrySweep, hs, hcut, hm, hr]

/-- C9 witness: with retention `"0"`, a directory one millisecond older than
the sweep instant is removed; with retention unset, the default 24-hour
sweep is active. -/
theorem retention_check :
    cleanupOldJobs 2000 (KEEP_JOBS_HOURS (some "0")) [⟨"job2", true, 1500, true, true⟩]
      = [("job2", SweepAction.removed)] :=
  retention_zero_unset_behavior.2.2 2000 ⟨"job2", true, 1500, true, true⟩ rfl rfl rfl
    (by decide)

/-- C9 counterexample: with the retention variable set to zero the sweeper
deletes a job directory (here one with mtime just before the sweep), and
with it unset the 24-hour default still deletes a two-day-old directory —
refuting "the retention sweeper is disabled entirely: no job directory is
ever deleted" for zero or unset retention. -/
theorem retention_zero_deletes :
    cleanupOldJobs 1000 (KEEP_JOBS_HOURS (some "0")) [⟨"job1", true, 999, true, true⟩]
      = [("job1", SweepAction.removed)]
    ∧ cleanupOldJobs 172800000 (KEEP_JOBS_HOURS none) [⟨"job3", true, 0, true, true⟩]
      = [("job3", SweepAction.removed)] := by
  decide

/-- C10: when the shared secret is unset (or the empty string), the
authorization middleware admits every request — with any header value or
none at all — so authentication is disabled under that variant's default
configuration. -/
theorem authMiddleware_empty_key (header : Option String) :
    authMiddleware (classKeyFromEnv none) header = true
    ∧ authMiddleware (classKeyFromEnv (some "")) header = true := by
  constructor <;> rfl

end Pembroider
